import Mathlib

/-!
Shallow embedding of the Cloudinary URL-building module
(`src/lib/cloudinary.ts`) of the pourtheport repository, together with
theorems settling the claims of the specification about it.

JavaScript semantics conventions used by the embedding:

* optional record fields become `Option`-valued fields; an absent field is
  `none`;
* a JavaScript truthiness test `if (x)` on a number is `x ≠ 0`, on a string
  `x ≠ ""`, on a boolean `x = true`; a `!== undefined` test is `isSome`;
* the one-time environment read in `getCloudName()` is lifted to an explicit
  `cloudName` parameter of every function that used it;
* the JavaScript numbers appearing in this module are integers except the
  device-pixel-ratio multipliers (1, 1.5, 2); numeric fields are embedded as
  `Int`, dpr values as `ℚ`, and `jsRatStr` reproduces JavaScript
  number-to-string conversion on integers and halves (the only rational
  values that occur in this module);
* the `aspectRatio` source field is named `aspectRatioOpt` here.
-/

/-- JavaScript number-to-string conversion, restricted to integers and
halves, which are the only rational values arising in this module
(dpr multipliers 1, 1.5, 2 and their products with integer widths). -/
def jsRatStr (q : ℚ) : String :=
  if q.den = 1 then toString q.num
  else toString (q.num / 2) ++ ".5"

/-- Embedding of the TypeScript union type of the `quality` field:
a fixed auto-tier token or a number. -/
inductive Quality where
  | auto
  | autoBest
  | autoGood
  | autoLow
  | autoEco
  | num (n : Int)
  deriving DecidableEq

/-- Rendering of a quality value as it appears in the URL token. -/
def qualityStr : Quality → String
  | .auto => "auto"
  | .autoBest => "auto:best"
  | .autoGood => "auto:good"
  | .autoLow => "auto:low"
  | .autoEco => "auto:eco"
  | .num n => toString n

/-- JavaScript truthiness of a quality value: the number 0 is falsy,
every auto-tier token (a nonempty string) is truthy. -/
def qualityTruthy : Quality → Bool
  | .num n => n != 0
  | _ => true

/-- Embedding of the union type of the `dpr` field: the token `auto`
or a number. -/
inductive Dpr where
  | auto
  | num (q : ℚ)
  deriving DecidableEq

/-- Rendering of a dpr value as it appears in the URL token. -/
def dprStr : Dpr → String
  | .auto => "auto"
  | .num q => jsRatStr q

/-- JavaScript truthiness of a dpr value: the number 0 is falsy. -/
def dprTruthy : Dpr → Bool
  | .auto => true
  | .num q => q != 0

/-- Embedding of the union type of the `vignette` field: a number or a
string. -/
inductive Vignette where
  | num (n : Int)
  | str (s : String)
  deriving DecidableEq

/-- Rendering of a vignette value. -/
def vignetteStr : Vignette → String
  | .num n => toString n
  | .str s => s

/-- JavaScript truthiness of a vignette value. -/
def vignetteTruthy : Vignette → Bool
  | .num n => n != 0
  | .str s => !s.data.isEmpty

/-- Embedding of the `CloudinaryTransforms` interface (source lines 9–71):
a flat record of optional fields. String-union fields are embedded as
`Option String`; the unions never contain the empty string. -/
structure CloudinaryTransforms where
  width : Option Int := none
  height : Option Int := none
  aspectRatioOpt : Option String := none
  crop : Option String := none
  gravity : Option String := none
  quality : Option Quality := none
  format : Option String := none
  fetchFormat : Option String := none
  dpr : Option Dpr := none
  brightness : Option Int := none
  contrast : Option Int := none
  saturation : Option Int := none
  gamma : Option Int := none
  vibrance : Option Int := none
  hue : Option Int := none
  opacity : Option Int := none
  blur : Option Int := none
  sharpen : Option Int := none
  unsharpMask : Option String := none
  sepia : Option Int := none
  grayscale : Option Bool := none
  blackwhite : Option String := none
  negate : Option Bool := none
  oilPaint : Option Int := none
  vignette : Option Vignette := none
  pixelate : Option Int := none
  border : Option String := none
  background : Option String := none
  angle : Option Int := none
  progressive : Option Bool := none
  immutableCache : Option Bool := none
  stripProfile : Option Bool := none
  customTransform : Option String := none
  deriving DecidableEq

/-- Token of a numeric field gated by JavaScript truthiness,
as in the source pattern `if (transforms.width) parts.push(...)`:
emitted iff the field is present and nonzero. -/
def numTok (pre : String) : Option Int → List String
  | some n => if n = 0 then [] else [pre ++ toString n]
  | none => []

/-- Token of a numeric field gated by `!== undefined`, as in the source
pattern `if (transforms.brightness !== undefined)`: emitted whenever the
field is present, including at 0. -/
def numTokU (pre : String) : Option Int → List String
  | some n => [pre ++ toString n]
  | none => []

/-- Token of a string field gated by truthiness: emitted iff the field is
present and nonempty. -/
def strTok (pre : String) : Option String → List String
  | some s => if s.data.isEmpty then [] else [pre ++ s]
  | none => []

/-- Token of a boolean flag field: emitted iff present and true. -/
def flagTok (tok : String) : Option Bool → List String
  | some b => if b then [tok] else []
  | none => []

/-- Token of the `quality` field (source line 122). -/
def qualityTok : Option Quality → List String
  | some q => if qualityTruthy q then ["q_" ++ qualityStr q] else []
  | none => []

/-- Token of the `dpr` field (source line 115). -/
def dprTok : Option Dpr → List String
  | some d => if dprTruthy d then ["dpr_" ++ dprStr d] else []
  | none => []

/-- Token of the `vignette` field (source line 153); both branches of the
source conditional render the same string. -/
def vignetteTok : Option Vignette → List String
  | some v => if vignetteTruthy v then ["e_vignette:" ++ vignetteStr v] else []
  | none => []

/-- JavaScript truthiness of an optional string field. -/
def strTruthy : Option String → Bool
  | some s => !s.data.isEmpty
  | none => false

/-- Format token logic (source lines 124–129): `fetchFormat` wins over
`format` in an if/else-if chain. -/
def formatTok (t : CloudinaryTransforms) : List String :=
  if strTruthy t.fetchFormat then ["f_" ++ t.fetchFormat.getD ""]
  else if strTruthy t.format then ["f_" ++ t.format.getD ""]
  else []

/-- The array of transformation tokens pushed by source lines 107–169, in
source push order. -/
def transformParts (t : CloudinaryTransforms) : List String :=
  numTok "w_" t.width ++ numTok "h_" t.height ++
  strTok "ar_" t.aspectRatioOpt ++
  dprTok t.dpr ++
  strTok "c_" t.crop ++ strTok "g_" t.gravity ++
  qualityTok t.quality ++
  formatTok t ++
  numTokU "e_brightness:" t.brightness ++ numTokU "e_contrast:" t.contrast ++
  numTokU "e_saturation:" t.saturation ++ numTokU "e_gamma:" t.gamma ++
  numTokU "e_vibrance:" t.vibrance ++
  numTokU "e_hue:" t.hue ++ numTokU "o_" t.opacity ++
  numTok "e_blur:" t.blur ++ numTok "e_sharpen:" t.sharpen ++
  strTok "e_unsharp_mask:" t.unsharpMask ++
  numTok "e_sepia:" t.sepia ++ flagTok "e_grayscale" t.grayscale ++
  strTok "e_blackwhite:" t.blackwhite ++ flagTok "e_negate" t.negate ++
  numTok "e_oil_paint:" t.oilPaint ++ vignetteTok t.vignette ++
  numTok "e_pixelate:" t.pixelate ++
  strTok "bo_" t.border ++ strTok "b_" t.background ++
  numTok "a_" t.angle ++
  flagTok "fl_progressive" t.progressive ++
  flagTok "fl_immutable_cache" t.immutableCache ++
  flagTok "fl_strip_profile" t.stripProfile ++
  strTok "" t.customTransform

/-- JavaScript `Array.prototype.join(sep)`. -/
def joinSep (sep : String) : List String → String
  | [] => ""
  | [a] => a
  | a :: b :: rest => a ++ sep ++ joinSep sep (b :: rest)

/-- Source line 172:
`transformParts.length > 0 ? transformParts.join(',') + '/' : ''`. -/
def transformString (t : CloudinaryTransforms) : String :=
  if (transformParts t).length > 0 then joinSep "," (transformParts t) ++ "/"
  else ""

/-- Embedding of `getCloudName()` (source lines 84–90): reads the
environment value `PUBLIC_CLOUDINARY_CLOUD_NAME`, defaulting to "demo"
when it is unset or empty (JavaScript `||`). -/
def getCloudName (env : Option String) : String :=
  match env with
  | some v => if v.data.isEmpty then "demo" else v
  | none => "demo"

/-- Embedding of `buildCloudinaryUrl` (source lines 99–175). The
`getCloudName()` environment read is lifted to the explicit `cloudName`
argument; line 174 returns
`${baseUrl}/${transformString}${publicId}` where `baseUrl` is
`https://res.cloudinary.com/${cloudName}/image/upload`. -/
def buildCloudinaryUrl (cloudName publicId : String)
    (t : CloudinaryTransforms) : String :=
  "https://res.cloudinary.com/" ++ cloudName ++ "/image/upload" ++ "/" ++
    transformString t ++ publicId

/-- Embedding of the `RESPONSIVE_BREAKPOINTS` record (source lines 74–79). -/
structure Breakpoints where
  mobile : Int
  tablet : Int
  desktop : Int
  large : Int

/-- The source constant. -/
def RESPONSIVE_BREAKPOINTS : Breakpoints :=
  { mobile := 400, tablet := 800, desktop := 1200, large := 1600 }

/-- JavaScript `Object.values(RESPONSIVE_BREAKPOINTS)`, in insertion
order. -/
def breakpointValues : List Int :=
  [RESPONSIVE_BREAKPOINTS.mobile, RESPONSIVE_BREAKPOINTS.tablet,
   RESPONSIVE_BREAKPOINTS.desktop, RESPONSIVE_BREAKPOINTS.large]

/-- JavaScript `x || d` for an optional string field. -/
def jsOrStr (o : Option String) (d : String) : String :=
  match o with
  | some s => if s.data.isEmpty then d else s
  | none => d

/-- JavaScript `x || d` for the optional `quality` field (the numeric
quality 0 is falsy). -/
def jsOrQuality (o : Option Quality) (d : Quality) : Quality :=
  match o with
  | some q => if qualityTruthy q then q else d
  | none => d

/-- Result type of the srcset generators: a srcset string and a sizes
attribute. -/
structure SrcsetResult where
  srcset : String
  sizes : String
  deriving DecidableEq

/-- The srcset entries built by `getCloudinaryResponsiveSet`
(source lines 191–200): one entry per breakpoint, each from
`buildCloudinaryUrl` with width overridden, `crop`/`quality` defaulted by
JavaScript `||`, and `format` forced to webp. -/
def responsiveSrcsetEntries (cloudName publicId : String)
    (baseTransforms : CloudinaryTransforms) : List String :=
  breakpointValues.map fun width =>
    buildCloudinaryUrl cloudName publicId
      { baseTransforms with
        width := some width,
        crop := some (jsOrStr baseTransforms.crop "fill"),
        quality := some (jsOrQuality baseTransforms.quality Quality.auto),
        format := some "webp" } ++ " " ++ toString width ++ "w"

/-- Embedding of `getCloudinaryResponsiveSet` (source lines 184–209). -/
def getCloudinaryResponsiveSet (cloudName publicId : String)
    (baseTransforms : CloudinaryTransforms) : SrcsetResult :=
  { srcset := joinSep ", " (responsiveSrcsetEntries cloudName publicId baseTransforms),
    sizes := "(max-width: 640px) 400px, (max-width: 1024px) 800px, (max-width: 1440px) 1200px, 1600px" }

/-- Embedding of `getPlaceholderUrl` (source lines 250–257). -/
def getPlaceholderUrl (cloudName publicId : String) : String :=
  buildCloudinaryUrl cloudName publicId
    { width := some 50, quality := some Quality.autoLow, blur := some 400,
      fetchFormat := some "auto" }

/-- The srcset entries built by `getCloudinaryDprSrcset`
(source lines 324–343): for each breakpoint and each dpr multiplier, a URL
with width and dpr overridden, followed by a width descriptor that is the
tier width for dpr = 1 and the product otherwise. -/
def dprSrcsetEntries (cloudName publicId : String)
    (baseTransforms : CloudinaryTransforms) (supportDpr : Bool) : List String :=
  let dprValues : List ℚ := if supportDpr then [1, 1.5, 2] else [1]
  (breakpointValues.map fun width =>
    dprValues.map fun dpr =>
      let url := buildCloudinaryUrl cloudName publicId
        { baseTransforms with
          width := some width,
          dpr := some (Dpr.num dpr),
          crop := some (jsOrStr baseTransforms.crop "fill"),
          quality := some (jsOrQuality baseTransforms.quality Quality.auto),
          fetchFormat := some "auto" }
      let descriptor := if dpr = 1 then toString width ++ "w"
        else jsRatStr ((width : ℚ) * dpr) ++ "w"
      url ++ " " ++ descriptor).flatten

/-- Embedding of `getCloudinaryDprSrcset` (source lines 319–351). -/
def getCloudinaryDprSrcset (cloudName publicId : String)
    (baseTransforms : CloudinaryTransforms) (supportDpr : Bool) : SrcsetResult :=
  { srcset := joinSep ", " (dprSrcsetEntries cloudName publicId baseTransforms supportDpr),
    sizes := "(max-width: 640px) 400px, (max-width: 1024px) 800px, (max-width: 1440px) 1200px, 1600px" }

/-- Character class of the source regex (letters, digits, underscore,
hyphen, slash, dot). -/
def validChar (ch : Char) : Bool :=
  ch.isAlpha || ch.isDigit || ch == '_' || ch == '-' || ch == '/' || ch == '.'

/-- Semantics of `validIdRegex.test(publicId)`: the anchored
one-or-more-characters class matches iff the string is nonempty and every
character is in the class. -/
def validIdRegexTest (s : String) : Bool :=
  !s.data.isEmpty && s.data.all validChar

/-- Embedding of `validatePublicId` (source lines 359–365). The
typeof-string guard is vacuous in a typed embedding. -/
def validatePublicId (publicId : String) : Bool :=
  if publicId.data.isEmpty then false
  else validIdRegexTest publicId && decide (publicId.length > 0)

/-- Substring predicate: the first string occurs contiguously inside the
second. -/
def strIncludes (needle hay : String) : Prop :=
  needle.data <:+: hay.data

instance (n h : String) : Decidable (strIncludes n h) :=
  inferInstanceAs (Decidable (n.data <:+: h.data))

/-- Helper: an explicit decomposition witnesses the substring predicate. -/
theorem strIncludes_intro (pre post needle hay : String)
    (h : hay = pre ++ needle ++ post) : strIncludes needle hay := by
  subst h
  exact ⟨pre.data, post.data, by simp [String.data_append]⟩

/-- Helper: when no transformation tokens are emitted, the URL is the base
URL followed directly by the identifier. -/
theorem build_parts_nil (c id : String) (t : CloudinaryTransforms)
    (h : transformParts t = []) :
    buildCloudinaryUrl c id t =
      "https://res.cloudinary.com/" ++ c ++ "/image/upload/" ++ id := by
  unfold buildCloudinaryUrl transformString
  rw [h]
  simp
  apply String.ext
  simp [String.data_append, List.append_assoc]

/-- Helper: the JavaScript rendering of an integer-valued rational is the
decimal string of the integer. -/
theorem jsRatStr_intCast (n : Int) : jsRatStr (n : ℚ) = toString n := by
  simp [jsRatStr, Rat.den_intCast, Rat.num_intCast]

/-- C1: for every account and image identifier, `buildCloudinaryUrl` with an
empty options record returns exactly the service root, the account,
`/image/upload/` and the identifier: the transform segment is omitted
entirely, with no empty segment and no stray or double slash between
`upload` and the identifier. -/
theorem C1_empty_options_url (c id : String) :
    buildCloudinaryUrl c id {} =
      "https://res.cloudinary.com/" ++ c ++ "/image/upload/" ++ id :=
  build_parts_nil c id {} rfl

/-- C2: the worked example — width 300, height 200, crop fill, quality
auto:good on identifier `shoes/red` — yields the service root followed by
the transform segment `w_300,h_200,c_fill,q_auto:good` (tokens
comma-joined, in the fixed category order dimensions, crop, quality)
followed by `/shoes/red`. -/
theorem C2_example_url (c : String) :
    buildCloudinaryUrl c "shoes/red"
      { width := some 300, height := some 200, crop := some "fill",
        quality := some Quality.autoGood } =
    "https://res.cloudinary.com/" ++ c ++
      "/image/upload/w_300,h_200,c_fill,q_auto:good/shoes/red" := by
  unfold buildCloudinaryUrl
  apply String.ext
  simp [String.data_append, List.append_assoc]
  decide

/-- C3 counterexample: the claim fails at the populated numeric value 0 —
`width := 0` is dropped by the JavaScript truthiness guard, so the URL is
the bare no-transform URL and contains no `w_0` token at all, contradicting
the claim that populated numeric values, including 0, are emitted
verbatim. -/
theorem C3_counterexample_width_zero :
    buildCloudinaryUrl "demo" "x" { width := some 0 } =
        "https://res.cloudinary.com/demo/image/upload/x" ∧
      ¬ strIncludes "w_0" (buildCloudinaryUrl "demo" "x" { width := some 0 }) := by
  constructor
  · decide
  · decide

/-- Helper: when exactly one transformation token is emitted, the URL
decomposes as the base prefix, the token, and a slash followed by the
identifier. -/
theorem build_single_part (c id : String) (t : CloudinaryTransforms) (tok : String)
    (h : transformParts t = [tok]) :
    buildCloudinaryUrl c id t =
      ("https://res.cloudinary.com/" ++ c ++ "/image/upload/") ++ tok ++ ("/" ++ id) := by
  unfold buildCloudinaryUrl transformString
  rw [h]
  simp [joinSep]
  apply String.ext
  simp [String.data_append, List.append_assoc]

/-- C3 (amended): every numeric option field populated with a nonzero value
has the value emitted verbatim in the corresponding token, with no range
check — shown for all nine truthiness-gated numeric fields (width, height,
dpr, blur, sharpen, sepia, oilPaint, pixelate, angle) at an arbitrary
nonzero value, and for all seven adjustment fields checked against
undefined (brightness, contrast, saturation, gamma, vibrance, hue,
opacity) at an arbitrary value including 0 and out-of-range values;
however, the value 0 is omitted entirely (no token) for each of the nine
truthiness-gated fields: the zero-valued record builds the same URL as the
empty record. -/
theorem C3_numeric_verbatim_amended (c id : String) (n : Int) (q : ℚ) (m : Int)
    (h : n ≠ 0) (hq : q ≠ 0) :
    strIncludes ("w_" ++ toString n) (buildCloudinaryUrl c id { width := some n }) ∧
    strIncludes ("h_" ++ toString n) (buildCloudinaryUrl c id { height := some n }) ∧
    strIncludes ("dpr_" ++ jsRatStr q)
      (buildCloudinaryUrl c id { dpr := some (Dpr.num q) }) ∧
    strIncludes ("e_blur:" ++ toString n) (buildCloudinaryUrl c id { blur := some n }) ∧
    strIncludes ("e_sharpen:" ++ toString n)
      (buildCloudinaryUrl c id { sharpen := some n }) ∧
    strIncludes ("e_sepia:" ++ toString n)
      (buildCloudinaryUrl c id { sepia := some n }) ∧
    strIncludes ("e_oil_paint:" ++ toString n)
      (buildCloudinaryUrl c id { oilPaint := some n }) ∧
    strIncludes ("e_pixelate:" ++ toString n)
      (buildCloudinaryUrl c id { pixelate := some n }) ∧
    strIncludes ("a_" ++ toString n) (buildCloudinaryUrl c id { angle := some n }) ∧
    strIncludes ("e_brightness:" ++ toString m)
      (buildCloudinaryUrl c id { brightness := some m }) ∧
    strIncludes ("e_contrast:" ++ toString m)
      (buildCloudinaryUrl c id { contrast := some m }) ∧
    strIncludes ("e_saturation:" ++ toString m)
      (buildCloudinaryUrl c id { saturation := some m }) ∧
    strIncludes ("e_gamma:" ++ toString m)
      (buildCloudinaryUrl c id { gamma := some m }) ∧
    strIncludes ("e_vibrance:" ++ toString m)
      (buildCloudinaryUrl c id { vibrance := some m }) ∧
    strIncludes ("e_hue:" ++ toString m) (buildCloudinaryUrl c id { hue := some m }) ∧
    strIncludes ("o_" ++ toString m) (buildCloudinaryUrl c id { opacity := some m }) ∧
    buildCloudinaryUrl c id { width := some 0 } = buildCloudinaryUrl c id {} ∧
    buildCloudinaryUrl c id { height := some 0 } = buildCloudinaryUrl c id {} ∧
    buildCloudinaryUrl c id { dpr := some (Dpr.num 0) } = buildCloudinaryUrl c id {} ∧
    buildCloudinaryUrl c id { blur := some 0 } = buildCloudinaryUrl c id {} ∧
    buildCloudinaryUrl c id { sharpen := some 0 } = buildCloudinaryUrl c id {} ∧
    buildCloudinaryUrl c id { sepia := some 0 } = buildCloudinaryUrl c id {} ∧
    buildCloudinaryUrl c id { oilPaint := some 0 } = buildCloudinaryUrl c id {} ∧
    buildCloudinaryUrl c id { pixelate := some 0 } = buildCloudinaryUrl c id {} ∧
    buildCloudinaryUrl c id { angle := some 0 } = buildCloudinaryUrl c id {} := by
  refine ⟨?_, ?_, ?_, ?_, ?_, ?_, ?_, ?_, ?_, ?_, ?_, ?_, ?_, ?_, ?_, ?_,
    rfl, rfl, rfl, rfl, rfl, rfl, rfl, rfl, rfl⟩
  · have hp : transformParts { width := some n } = ["w_" ++ toString n] := by
      simp [transformParts, numTok, numTokU, strTok, flagTok, qualityTok, dprTok,
        vignetteTok, formatTok, strTruthy, h]
    exact strIncludes_intro _ _ _ _ (build_single_part c id _ _ hp)
  · have hp : transformParts { height := some n } = ["h_" ++ toString n] := by
      simp [transformParts, numTok, numTokU, strTok, flagTok, qualityTok, dprTok,
        vignetteTok, formatTok, strTruthy, h]
    exact strIncludes_intro _ _ _ _ (build_single_part c id _ _ hp)
  · have hp : transformParts { dpr := some (Dpr.num q) } = ["dpr_" ++ jsRatStr q] := by
      simp [transformParts, numTok, numTokU, strTok, flagTok, qualityTok, dprTok,
        vignetteTok, formatTok, strTruthy, dprTruthy, dprStr, hq]
    exact strIncludes_intro _ _ _ _ (build_single_part c id _ _ hp)
  · have hp : transformParts { blur := some n } = ["e_blur:" ++ toString n] := by
      simp [transformParts, numTok, numTokU, strTok, flagTok, qualityTok, dprTok,
        vignetteTok, formatTok, strTruthy, h]
    exact strIncludes_intro _ _ _ _ (build_single_part c id _ _ hp)
  · have hp : transformParts { sharpen := some n } = ["e_sharpen:" ++ toString n] := by
      simp [transformParts, numTok, numTokU, strTok, flagTok, qualityTok, dprTok,
        vignetteTok, formatTok, strTruthy, h]
    exact strIncludes_intro _ _ _ _ (build_single_part c id _ _ hp)
  · have hp : transformParts { sepia := some n } = ["e_sepia:" ++ toString n] := by
      simp [transformParts, numTok, numTokU, strTok, flagTok, qualityTok, dprTok,
        vignetteTok, formatTok, strTruthy, h]
    exact strIncludes_intro _ _ _ _ (build_single_part c id _ _ hp)
  · have hp : transformParts { oilPaint := some n } = ["e_oil_paint:" ++ toString n] := by
      simp [transformParts, numTok, numTokU, strTok, flagTok, qualityTok, dprTok,
        vignetteTok, formatTok, strTruthy, h]
    exact strIncludes_intro _ _ _ _ (build_single_part c id _ _ hp)
  · have hp : transformParts { pixelate := some n } = ["e_pixelate:" ++ toString n] := by
      simp [transformParts, numTok, numTokU, strTok, flagTok, qualityTok, dprTok,
        vignetteTok, formatTok, strTruthy, h]
    exact strIncludes_intro _ _ _ _ (build_single_part c id _ _ hp)
  · have hp : transformParts { angle := some n } = ["a_" ++ toString n] := by
      simp [transformParts, numTok, numTokU, strTok, flagTok, qualityTok, dprTok,
        vignetteTok, formatTok, strTruthy, h]
    exact strIncludes_intro _ _ _ _ (build_single_part c id _ _ hp)
  · have hp : transformParts { brightness := some m } =
        ["e_brightness:" ++ toString m] := by
      simp [transformParts, numTok, numTokU, strTok, flagTok, qualityTok, dprTok,
        vignetteTok, formatTok, strTruthy]
    exact strIncludes_intro _ _ _ _ (build_single_part c id _ _ hp)
  · have hp : transformParts { contrast := some m } = ["e_contrast:" ++ toString m] := by
      simp [transformParts, numTok, numTokU, strTok, flagTok, qualityTok, dprTok,
        vignetteTok, formatTok, strTruthy]
    exact strIncludes_intro _ _ _ _ (build_single_part c id _ _ hp)
  · have hp : transformParts { saturation := some m } =
        ["e_saturation:" ++ toString m] := by
      simp [transformParts, numTok, numTokU, strTok, flagTok, qualityTok, dprTok,
        vignetteTok, formatTok, strTruthy]
    exact strIncludes_intro _ _ _ _ (build_single_part c id _ _ hp)
  · have hp : transformParts { gamma := some m } = ["e_gamma:" ++ toString m] := by
      simp [transformParts, numTok, numTokU, strTok, flagTok, qualityTok, dprTok,
        vignetteTok, formatTok, strTruthy]
    exact strIncludes_intro _ _ _ _ (build_single_part c id _ _ hp)
  · have hp : transformParts { vibrance := some m } = ["e_vibrance:" ++ toString m] := by
      simp [transformParts, numTok, numTokU, strTok, flagTok, qualityTok, dprTok,
        vignetteTok, formatTok, strTruthy]
    exact strIncludes_intro _ _ _ _ (build_single_part c id _ _ hp)
  · have hp : transformParts { hue := some m } = ["e_hue:" ++ toString m] := by
      simp [transformParts, numTok, numTokU, strTok, flagTok, qualityTok, dprTok,
        vignetteTok, formatTok, strTruthy]
    exact strIncludes_intro _ _ _ _ (build_single_part c id _ _ hp)
  · have hp : transformParts { opacity := some m } = ["o_" ++ toString m] := by
      simp [transformParts, numTok, numTokU, strTok, flagTok, qualityTok, dprTok,
        vignetteTok, formatTok, strTruthy]
    exact strIncludes_intro _ _ _ _ (build_single_part c id _ _ hp)

/-- C3 witness: the amended theorem applied at the nonzero width value 600,
the dpr value 1.5 and the adjustment value 99999, discharging both nonzero
hypotheses. -/
theorem C3_numeric_verbatim_amended_witness :
    strIncludes ("w_" ++ toString (600 : Int))
      (buildCloudinaryUrl "demo" "x" { width := some 600 }) ∧
    strIncludes ("h_" ++ toString (600 : Int))
      (buildCloudinaryUrl "demo" "x" { height := some 600 }) ∧
    strIncludes ("dpr_" ++ jsRatStr 1.5)
      (buildCloudinaryUrl "demo" "x" { dpr := some (Dpr.num 1.5) }) ∧
    strIncludes ("e_blur:" ++ toString (600 : Int))
      (buildCloudinaryUrl "demo" "x" { blur := some 600 }) ∧
    strIncludes ("e_sharpen:" ++ toString (600 : Int))
      (buildCloudinaryUrl "demo" "x" { sharpen := some 600 }) ∧
    strIncludes ("e_sepia:" ++ toString (600 : Int))
      (buildCloudinaryUrl "demo" "x" { sepia := some 600 }) ∧
    strIncludes ("e_oil_paint:" ++ toString (600 : Int))
      (buildCloudinaryUrl "demo" "x" { oilPaint := some 600 }) ∧
    strIncludes ("e_pixelate:" ++ toString (600 : Int))
      (buildCloudinaryUrl "demo" "x" { pixelate := some 600 }) ∧
    strIncludes ("a_" ++ toString (600 : Int))
      (buildCloudinaryUrl "demo" "x" { angle := some 600 }) ∧
    strIncludes ("e_brightness:" ++ toString (99999 : Int))
      (buildCloudinaryUrl "demo" "x" { brightness := some 99999 }) ∧
    strIncludes ("e_contrast:" ++ toString (99999 : Int))
      (buildCloudinaryUrl "demo" "x" { contrast := some 99999 }) ∧
    strIncludes ("e_saturation:" ++ toString (99999 : Int))
      (buildCloudinaryUrl "demo" "x" { saturation := some 99999 }) ∧
    strIncludes ("e_gamma:" ++ toString (99999 : Int))
      (buildCloudinaryUrl "demo" "x" { gamma := some 99999 }) ∧
    strIncludes ("e_vibrance:" ++ toString (99999 : Int))
      (buildCloudinaryUrl "demo" "x" { vibrance := some 99999 }) ∧
    strIncludes ("e_hue:" ++ toString (99999 : Int))
      (buildCloudinaryUrl "demo" "x" { hue := some 99999 }) ∧
    strIncludes ("o_" ++ toString (99999 : Int))
      (buildCloudinaryUrl "demo" "x" { opacity := some 99999 }) ∧
    buildCloudinaryUrl "demo" "x" { width := some 0 } =
      buildCloudinaryUrl "demo" "x" {} ∧
    buildCloudinaryUrl "demo" "x" { height := some 0 } =
      buildCloudinaryUrl "demo" "x" {} ∧
    buildCloudinaryUrl "demo" "x" { dpr := some (Dpr.num 0) } =
      buildCloudinaryUrl "demo" "x" {} ∧
    buildCloudinaryUrl "demo" "x" { blur := some 0 } =
      buildCloudinaryUrl "demo" "x" {} ∧
    buildCloudinaryUrl "demo" "x" { sharpen := some 0 } =
      buildCloudinaryUrl "demo" "x" {} ∧
    buildCloudinaryUrl "demo" "x" { sepia := some 0 } =
      buildCloudinaryUrl "demo" "x" {} ∧
    buildCloudinaryUrl "demo" "x" { oilPaint := some 0 } =
      buildCloudinaryUrl "demo" "x" {} ∧
    buildCloudinaryUrl "demo" "x" { pixelate := some 0 } =
      buildCloudinaryUrl "demo" "x" {} ∧
    buildCloudinaryUrl "demo" "x" { angle := some 0 } =
      buildCloudinaryUrl "demo" "x" {} :=
  C3_numeric_verbatim_amended "demo" "x" 600 1.5 99999 (by decide) (by norm_num)

/-- C4: the builder is deterministic — with the account fixed, equal
identifier and equal options records give byte-identical URL strings; in
particular two records that populate the same fields with the same values
are equal as records, whatever order their fields were written in, and so
produce identical output. -/
theorem C4_deterministic (c id : String) (t₁ t₂ : CloudinaryTransforms)
    (h : t₁ = t₂) :
    buildCloudinaryUrl c id t₁ = buildCloudinaryUrl c id t₂ := by
  rw [h]

/-- C4 witness: two records written with their fields in opposite orders
produce the same URL. -/
theorem C4_deterministic_witness :
    buildCloudinaryUrl "demo" "img" { width := some 300, height := some 200 } =
      buildCloudinaryUrl "demo" "img" { height := some 200, width := some 300 } :=
  C4_deterministic "demo" "img" _ _ rfl

/-- C5: for every account and identifier, the placeholder URL contains a
width token whose value is at most 50 and a blur token. -/
theorem C5_placeholder_width_blur (c id : String) :
    ∃ v : Int, v ≤ 50 ∧
      strIncludes ("w_" ++ toString v) (getPlaceholderUrl c id) ∧
      ∃ b : Int, strIncludes ("e_blur:" ++ toString b) (getPlaceholderUrl c id) := by
  refine ⟨50, by norm_num, ?_, 400, ?_⟩
  · apply strIncludes_intro ("https://res.cloudinary.com/" ++ c ++ "/image/upload/")
      (",q_auto:low,f_auto,e_blur:400/" ++ id)
    unfold getPlaceholderUrl buildCloudinaryUrl
    apply String.ext
    simp [transformString, transformParts, numTok, numTokU, strTok, flagTok,
      qualityTok, dprTok, vignetteTok, formatTok, strTruthy, qualityTruthy,
      qualityStr, joinSep, String.data_append, List.append_assoc,
      show toString (50 : Int) = "50" from rfl,
      show toString (400 : Int) = "400" from rfl]
  · apply strIncludes_intro
      ("https://res.cloudinary.com/" ++ c ++ "/image/upload/w_50,q_auto:low,f_auto,")
      ("/" ++ id)
    unfold getPlaceholderUrl buildCloudinaryUrl
    apply String.ext
    simp [transformString, transformParts, numTok, numTokU, strTok, flagTok,
      qualityTok, dprTok, vignetteTok, formatTok, strTruthy, qualityTruthy,
      qualityStr, joinSep, String.data_append, List.append_assoc,
      show toString (50 : Int) = "50" from rfl,
      show toString (400 : Int) = "400" from rfl]

/-- C6 counterexample: the claim fails for a base record whose quality is
populated with the number 0 — a set field that JavaScript `||` nevertheless
replaces with the default: the first responsive entry is not the entry the
claim describes (width overridden, crop defaulted, the set quality kept),
because the generator silently defaults the set quality to auto, as the
`q_auto` token in its srcset shows. -/
theorem C6_counterexample_quality_zero :
    (responsiveSrcsetEntries "demo" "x" { quality := some (Quality.num 0) }).head? ≠
        some (buildCloudinaryUrl "demo" "x"
          { width := some 400, crop := some "fill",
            quality := some (Quality.num 0), format := some "webp" } ++ " 400w") ∧
      strIncludes "q_auto"
        (getCloudinaryResponsiveSet "demo" "x"
          { quality := some (Quality.num 0) }).srcset := by
  constructor
  · decide
  · decide

/-- C6 (amended): for every account, identifier and base options record,
the responsive set has exactly four URL entries, one per breakpoint width
in the ascending order 400, 800, 1200, 1600, each built via
`buildCloudinaryUrl` with the width overridden to the breakpoint, the crop
defaulted to fill when unset, the quality defaulted to auto when unset or
when set to the falsy number 0 (JavaScript `||`), and the format forced to
webp; the srcset joins the entries with a comma and space. -/
theorem C6_responsive_entries_amended (c id : String) (b : CloudinaryTransforms) :
    (responsiveSrcsetEntries c id b).length = 4 ∧
    responsiveSrcsetEntries c id b =
      [(400 : Int), 800, 1200, 1600].map (fun width =>
        buildCloudinaryUrl c id
          { b with
            width := some width,
            crop := some (jsOrStr b.crop "fill"),
            quality := some (jsOrQuality b.quality Quality.auto),
            format := some "webp" } ++ " " ++ toString width ++ "w") ∧
    List.Pairwise (· < ·) [(400 : Int), 800, 1200, 1600] ∧
    (getCloudinaryResponsiveSet c id b).srcset =
      joinSep ", " (responsiveSrcsetEntries c id b) :=
  ⟨rfl, rfl, by decide, rfl⟩

/-- C7: with DPR support enabled, the generator cross-multiplies the four
breakpoint widths by exactly the multipliers 1, 1.5 and 2, yielding twelve
entries (breakpoints × dpr-variants, row-major); the width
descriptor is the tier width when dpr = 1 and the product tierWidth × dpr
otherwise, and the eight non-unit products render to the expected decimal
strings. -/
theorem C7_dpr_cross_product (c id : String) (b : CloudinaryTransforms) :
    (dprSrcsetEntries c id b true).length = 12 ∧
    dprSrcsetEntries c id b true =
      ([(400 : Int), 800, 1200, 1600].map (fun width =>
        [(1 : ℚ), 1.5, 2].map (fun dpr =>
          buildCloudinaryUrl c id
            { b with
              width := some width,
              dpr := some (Dpr.num dpr),
              crop := some (jsOrStr b.crop "fill"),
              quality := some (jsOrQuality b.quality Quality.auto),
              fetchFormat := some "auto" } ++ " " ++
            (if dpr = 1 then toString width ++ "w"
             else jsRatStr ((width : ℚ) * dpr) ++ "w")))).flatten ∧
    [jsRatStr ((400 : ℚ) * 1.5), jsRatStr ((800 : ℚ) * 1.5),
     jsRatStr ((1200 : ℚ) * 1.5), jsRatStr ((1600 : ℚ) * 1.5),
     jsRatStr ((400 : ℚ) * 2), jsRatStr ((800 : ℚ) * 2),
     jsRatStr ((1200 : ℚ) * 2), jsRatStr ((1600 : ℚ) * 2)] =
    ["600", "1200", "1800", "2400", "800", "1600", "2400", "3200"] := by
  refine ⟨rfl, rfl, ?_⟩
  rw [show ((400 : ℚ) * 1.5) = ((600 : Int) : ℚ) by norm_num,
    show ((800 : ℚ) * 1.5) = ((1200 : Int) : ℚ) by norm_num,
    show ((1200 : ℚ) * 1.5) = ((1800 : Int) : ℚ) by norm_num,
    show ((1600 : ℚ) * 1.5) = ((2400 : Int) : ℚ) by norm_num,
    show ((400 : ℚ) * 2) = ((800 : Int) : ℚ) by norm_num,
    show ((800 : ℚ) * 2) = ((1600 : Int) : ℚ) by norm_num,
    show ((1200 : ℚ) * 2) = ((2400 : Int) : ℚ) by norm_num,
    show ((1600 : ℚ) * 2) = ((3200 : Int) : ℚ) by norm_num]
  simp only [jsRatStr_intCast]
  decide

/-- C8: the builder is a total function that rejects nothing; in particular
the empty identifier with empty options yields the base URL with an empty
trailing path segment after `upload/`. -/
theorem C8_empty_identifier (c : String) :
    buildCloudinaryUrl c "" {} =
      "https://res.cloudinary.com/" ++ c ++ "/image/upload/" := by
  have h := build_parts_nil c "" {} rfl
  rw [h]
  apply String.ext
  simp [String.data_append]

/-- C9: `validatePublicId` returns true exactly on the nonempty strings
whose every character is a letter, digit, underscore, hyphen, slash or
dot; and the builder never invokes this check — an identifier rejected by
`validatePublicId` still flows verbatim into the returned URL, as the
final segment appended after a prefix that does not depend on the
identifier. -/
theorem C9_validate_characterization (c id : String) (t : CloudinaryTransforms) :
    (validatePublicId id = true ↔
      (id ≠ "" ∧ ∀ ch ∈ id.data,
        (ch.isAlpha || ch.isDigit || ch == '_' || ch == '-' || ch == '/' ||
          ch == '.') = true)) ∧
    (validatePublicId id = false →
      buildCloudinaryUrl c id t =
        ("https://res.cloudinary.com/" ++ c ++ "/image/upload" ++ "/" ++
          transformString t) ++ id) := by
  constructor
  · unfold validatePublicId validIdRegexTest validChar
    cases id with
    | mk l =>
      cases l with
      | nil => simp
      | cons a l =>
        simp [String.length, List.all_eq_true]
        intro _ _ heq
        exact List.noConfusion (String.ext_iff.mp heq)
  · intro _h
    rfl

/-- C9 witness: a well-formed identifier is accepted, a malformed one is
rejected, and the rejected identifier still appears verbatim at the end of
the built URL. -/
theorem C9_validate_characterization_witness :
    validatePublicId "products/pour-the-port_1.jpg" = true ∧
    validatePublicId "bad id!" = false ∧
    buildCloudinaryUrl "demo" "bad id!" {} =
      ("https://res.cloudinary.com/" ++ "demo" ++ "/image/upload" ++ "/" ++
        transformString {}) ++ "bad id!" :=
  ⟨(C9_validate_characterization "demo" "products/pour-the-port_1.jpg" {}).1.mpr
      ⟨by decide, by decide⟩,
    by decide,
    (C9_validate_characterization "demo" "bad id!" {}).2 (by decide)⟩

/-- C10: when both `fetchFormat` and `format` are populated, the format
logic emits exactly the single token `f_<fetchFormat>`, that token occurs
among the transformation tokens, and the built URL does not depend on the
`format` field at all — replacing `format` by anything leaves the URL
unchanged. -/
theorem C10_fetchFormat_precedence (c id : String) (t : CloudinaryTransforms)
    (ff fv : String) (g : Option String)
    (h1 : t.fetchFormat = some ff) (h2 : ff ≠ "") (_h3 : t.format = some fv) :
    formatTok t = ["f_" ++ ff] ∧
    ("f_" ++ ff) ∈ transformParts t ∧
    buildCloudinaryUrl c id { t with format := g } = buildCloudinaryUrl c id t := by
  have hffd : ff.data.isEmpty = false := by
    cases ff with
    | mk l =>
      cases l with
      | nil => exact absurd rfl h2
      | cons a l => rfl
  have hft : formatTok t = ["f_" ++ ff] := by
    simp [formatTok, h1, strTruthy, hffd]
  refine ⟨hft, ?_, ?_⟩
  · simp [transformParts, hft]
  · cases t
    simp_all [buildCloudinaryUrl, transformString, transformParts, formatTok,
      strTruthy, hffd]

/-- C10 witness: the precedence theorem applied at a record with
fetchFormat auto and format webp, replacing the format field by none. -/
theorem C10_fetchFormat_precedence_witness :
    formatTok { fetchFormat := some "auto", format := some "webp" } = ["f_" ++ "auto"] ∧
    ("f_" ++ "auto") ∈
      transformParts { fetchFormat := some "auto", format := some "webp" } ∧
    buildCloudinaryUrl "demo" "x"
        { ({ fetchFormat := some "auto", format := some "webp" } :
            CloudinaryTransforms) with format := none } =
      buildCloudinaryUrl "demo" "x" { fetchFormat := some "auto", format := some "webp" } :=
  C10_fetchFormat_precedence "demo" "x" _ "auto" "webp" none rfl (by decide) rfl
